import Mathlib

/-!
Shallow embedding of fs/crypto/policy.c (fscrypt policy management with the
MTK hardware-inline-encryption patches) and proofs about its behaviour.

Conventions of the embedding:
- C integers are Lean `Nat`s (all mode/flag/format fields are `u8`, so they
  range over 0..255; bit operations are taken within that 8-bit field where
  the C code complements a mask).
- C return codes are Lean `Int`s: `0` success, `-errno` failure, and for
  `get_context` a non-negative byte count.
- The external collaborators (the `s_cop` storage operations, the keyring
  resolution `fscrypt_get_encryption_info`, the mode allow-list
  `fscrypt_valid_enc_modes`, the randomness source and the boot-device probe)
  are exogenous: their outcomes are passed in as explicit parameters, so each
  embedded function is a pure function of the code under `src/` plus those
  outcomes.
- User-memory marshalling (`copy_from_user` / `copy_to_user`) and locking
  (`inode_lock`, `mnt_want_write_file`) are outside the policy logic; the
  marshalling is elided and the lock/write guard is kept only as the
  `mntWriteRes` outcome where it can change the return value.
-/

set_option genSizeOfSpec false

set_option genInjectivity false

/-! ## Constants

`FS_KEY_DESCRIPTOR_SIZE`, the encryption mode numbers, the policy flag bits
and the context format tag come from headers that are not part of this
repository snapshot (`fscrypt_private.h` and the uapi `fs.h`); their values
are the standard Linux uapi values, and only their distinctness and the
single-bit nature of the IV flag matter below.
-/

def FS_KEY_DESCRIPTOR_SIZE : Nat := 8

def FS_KEY_DERIVATION_NONCE_SIZE : Nat := 16

def FS_ENCRYPTION_MODE_INVALID : Nat := 0

def FS_ENCRYPTION_MODE_AES_256_XTS : Nat := 1

def FS_ENCRYPTION_MODE_AES_256_CTS : Nat := 4

/-- The hardware-private ("hardware inline encryption") content mode. -/
def FS_ENCRYPTION_MODE_PRIVATE : Nat := 127

/-- The IV-derivation-variant policy flag bit. -/
def FS_POLICY_FLAG_IV_INO_LBLK_32 : Nat := 16

/-- Modelled from the spec: the set of recognized policy flag bits
(`FS_POLICY_FLAGS_VALID`, defined in a header missing from `src/`). Per §3
the flags bitmask uses only recognized bits and the IV-derivation-variant
flag is one of them; we take the two padding bits plus the IV flag. -/
def FS_POLICY_FLAGS_VALID : Nat := 3 ||| FS_POLICY_FLAG_IV_INO_LBLK_32

def FS_ENCRYPTION_CONTEXT_FORMAT_V1 : Nat := 1

/-- sizeof(struct fscrypt_context) = 1+1+1+1+8+16 = 28 bytes
(`FSCRYPT_SET_CONTEXT_MAX_SIZE`). -/
def fscrypt_context_size : Nat := 28

/-- Complement of the IV-derivation-variant bit within the 8-bit flags field:
`flags & ~FS_POLICY_FLAG_IV_INO_LBLK_32` on a `u8` is `flags &&& 239`. -/
def IV_FLAG_COMPL : Nat := 255 ^^^ FS_POLICY_FLAG_IV_INO_LBLK_32

/-! Errno values used by policy.c. -/

def ENOENT : Int := 2

def EACCES : Int := 13

def EEXIST : Int := 17

def ENOTDIR : Int := 20

def EINVAL : Int := 22

def ERANGE : Int := 34

def ENOTEMPTY : Int := 39

def ENODATA : Int := 61

def ENOKEY : Int := 126

/-! ## Data model -/

/-- struct fscrypt_policy (user-facing record): version, content mode,
filename mode, flags, 8-byte master key descriptor. -/
structure fscrypt_policy where
  version : Nat
  contents_encryption_mode : Nat
  filenames_encryption_mode : Nat
  flags : Nat
  master_key_descriptor : List Nat

/-- struct fscrypt_context (on-disk record): format tag, content mode,
filename mode, flags, 8-byte descriptor, 16-byte nonce. -/
structure fscrypt_context where
  format : Nat
  contents_encryption_mode : Nat
  filenames_encryption_mode : Nat
  flags : Nat
  master_key_descriptor : List Nat
  nonce : List Nat

/-- struct fscrypt_info (resolved runtime view); only the fields policy.c
reads are modelled. The raw key bytes and the hashed-info handle are opaque
to the policy logic and are left out of the comparisons it performs. -/
structure fscrypt_info where
  ci_data_mode : Nat
  ci_filename_mode : Nat
  ci_flags : Nat
  ci_master_key_descriptor : List Nat

inductive FileType where
  | reg
  | dir
  | lnk
  | other
deriving DecidableEq

/-- The slice of struct inode that policy.c consults: the file type
(S_ISREG/S_ISDIR/S_ISLNK), the encrypted bit, its superblock's hardware
inline-encryption capability (`hie_is_capable(inode->i_sb)`), and the
`i_crypt_info` pointer as it stands after `fscrypt_get_encryption_info`. -/
structure Inode where
  ftype : FileType
  encrypted : Bool
  hie_capable : Bool
  crypt_info : Option fscrypt_info

/-- Modelled from the spec: the Mode Dispatcher `fscrypt_data_crypt_mode`
(defined in `fscrypt_private.h`, which is not under `src/`). §4.3: "If the
device/filesystem is hardware-capable and the declared mode requests it, the
stored mode becomes hardware-private"; requesting the hardware path is done
by declaring the hardware-private mode, so the map is the identity except
that it pins the hardware-private mode on a capable filesystem. -/
def fscrypt_data_crypt_mode (hie_capable : Bool) (mode : Nat) : Nat :=
  if hie_capable = true ∧ mode = FS_ENCRYPTION_MODE_PRIVATE then
    FS_ENCRYPTION_MODE_PRIVATE
  else
    mode

/-! ## Policy/context comparator (policy.c lines 21-39) -/

/-- is_encryption_context_consistent_with_policy: the stored context matches
the proposed policy. Content modes must be equal unless the filesystem is
hardware-capable and the stored mode is hardware-private; descriptor,
flags (unmasked) and filename mode must be equal. -/
def is_encryption_context_consistent_with_policy (hie_capable : Bool)
    (ctx : fscrypt_context) (policy : fscrypt_policy) : Bool :=
  if ctx.contents_encryption_mode ≠ policy.contents_encryption_mode ∧
      ¬(hie_capable = true ∧
        ctx.contents_encryption_mode = FS_ENCRYPTION_MODE_PRIVATE) then
    false
  else
    decide (ctx.master_key_descriptor = policy.master_key_descriptor ∧
      ctx.flags = policy.flags ∧
      ctx.filenames_encryption_mode = policy.filenames_encryption_mode)

/-- The §4.2 comparator as the spec words it, for comparison against the
code's `is_encryption_context_consistent_with_policy`: descriptors equal,
filename modes equal, flags equal after masking out the IV-derivation-variant
bit on both sides, content modes equal except the one-directional
hardware-private substitution on a capable filesystem. -/
def sameEffectivePolicySpec (hie_capable : Bool)
    (ctx : fscrypt_context) (policy : fscrypt_policy) : Bool :=
  decide (ctx.master_key_descriptor = policy.master_key_descriptor ∧
    ctx.filenames_encryption_mode = policy.filenames_encryption_mode ∧
    ctx.flags &&& IV_FLAG_COMPL = policy.flags &&& IV_FLAG_COMPL ∧
    (ctx.contents_encryption_mode = policy.contents_encryption_mode ∨
      (hie_capable = true ∧
        ctx.contents_encryption_mode = FS_ENCRYPTION_MODE_PRIVATE)))

/-! ## Policy assignment (policy.c lines 41-121) -/

/-- Exogenous outcomes consumed by fscrypt_ioctl_set_policy and
create_encryption_context_from_policy on one call. `getCtxRes` is the return
of `s_cop->get_context` (byte count or -errno), `storedCtx` the record it
filled when it read a full-size one, `setCtxRes` the return of
`s_cop->set_context`, `validEncModes` the allow-list
`fscrypt_valid_enc_modes` (defined in a header not under `src/`), `nonce`
the bytes drawn by `get_random_bytes`. -/
structure SetPolicyEnv where
  ownerOrCapable : Bool
  mntWriteRes : Int
  hie_capable : Bool
  isDir : Bool
  isDead : Bool
  emptyDir : Bool
  getCtxRes : Int
  storedCtx : fscrypt_context
  setCtxRes : Int
  validEncModes : Nat → Nat → Bool
  nonce : List Nat

/-- create_encryption_context_from_policy. Returns the C return value paired
with whether `set_context` was reached (i.e. whether a write was issued). -/
def create_encryption_context_from_policy (env : SetPolicyEnv)
    (policy : fscrypt_policy) : Int × Bool :=
  if env.validEncModes policy.contents_encryption_mode
      policy.filenames_encryption_mode = false then
    (-EINVAL, false)
  else if policy.flags &&& (255 ^^^ FS_POLICY_FLAGS_VALID) ≠ 0 then
    (-EINVAL, false)
  else if policy.flags &&& FS_POLICY_FLAG_IV_INO_LBLK_32 ≠ 0 ∧
      policy.contents_encryption_mode ≠ FS_ENCRYPTION_MODE_PRIVATE then
    (-EINVAL, false)
  else
    (env.setCtxRes, true)

/-- fscrypt_ioctl_set_policy. Returns the C return value paired with whether
a context write was issued. The branch ordering follows the C chain on the
`get_context` result: -ENODATA creates, a full-size consistent read no-ops,
any other non-negative count or -ERANGE conflicts, and any other error is
returned unchanged. -/
def fscrypt_ioctl_set_policy (env : SetPolicyEnv)
    (policy : fscrypt_policy) : Int × Bool :=
  if env.ownerOrCapable = false then
    (-EACCES, false)
  else if policy.version ≠ 0 then
    (-EINVAL, false)
  else if env.mntWriteRes ≠ 0 then
    (env.mntWriteRes, false)
  else if env.getCtxRes = -ENODATA then
    if env.isDir = false then
      (-ENOTDIR, false)
    else if env.isDead = true then
      (-ENOENT, false)
    else if env.emptyDir = false then
      (-ENOTEMPTY, false)
    else
      create_encryption_context_from_policy env policy
  else if env.getCtxRes = (fscrypt_context_size : Int) ∧
      is_encryption_context_consistent_with_policy env.hie_capable
        env.storedCtx policy = true then
    (0, false)
  else if 0 ≤ env.getCtxRes ∨ env.getCtxRes = -ERANGE then
    (-EEXIST, false)
  else
    (env.getCtxRes, false)

/-! ## Get-policy (policy.c lines 123-160) -/

/-- fscrypt_ioctl_get_policy. `getCtxRes` and `ctx` are the outcome of the
`s_cop->get_context` read. Returns the reported policy record or the -errno
the C code would return (copy_to_user elided). -/
def fscrypt_ioctl_get_policy (inode : Inode) (getCtxRes : Int)
    (ctx : fscrypt_context) : Except Int fscrypt_policy :=
  if inode.encrypted = false then
    .error (-ENODATA)
  else if getCtxRes < 0 ∧ getCtxRes ≠ -ERANGE then
    .error getCtxRes
  else if getCtxRes ≠ (fscrypt_context_size : Int) then
    .error (-EINVAL)
  else if ctx.format ≠ FS_ENCRYPTION_CONTEXT_FORMAT_V1 then
    .error (-EINVAL)
  else
    .ok
      { version := 0
        contents_encryption_mode :=
          if inode.ftype = FileType.dir ∧
              ctx.contents_encryption_mode ≠ FS_ENCRYPTION_MODE_INVALID then
            FS_ENCRYPTION_MODE_AES_256_XTS
          else
            ctx.contents_encryption_mode
        filenames_encryption_mode := ctx.filenames_encryption_mode
        flags := ctx.flags
        master_key_descriptor := ctx.master_key_descriptor }

/-! ## Permitted-context check (policy.c lines 181-267) -/

/-- The resolved-info comparison of fscrypt_has_permitted_context (lines
226-237): descriptors, data modes and filename modes equal, flags equal
after masking the IV-derivation-variant bit on both sides (MTK patch). -/
def fscrypt_info_same_policy (a b : fscrypt_info) : Bool :=
  decide (a.ci_master_key_descriptor = b.ci_master_key_descriptor ∧
    a.ci_data_mode = b.ci_data_mode ∧
    a.ci_filename_mode = b.ci_filename_mode ∧
    a.ci_flags &&& IV_FLAG_COMPL = b.ci_flags &&& IV_FLAG_COMPL)

/-- The raw-context comparison of fscrypt_has_permitted_context (lines
255-265), applied after both content modes went through
fscrypt_data_crypt_mode: descriptors, content modes and filename modes
equal, flags equal after masking the IV-derivation-variant bit. -/
def fscrypt_context_same_policy (a b : fscrypt_context) : Bool :=
  decide (a.master_key_descriptor = b.master_key_descriptor ∧
    a.contents_encryption_mode = b.contents_encryption_mode ∧
    a.filenames_encryption_mode = b.filenames_encryption_mode ∧
    a.flags &&& IV_FLAG_COMPL = b.flags &&& IV_FLAG_COMPL)

/-- Exogenous outcomes consumed by fscrypt_has_permitted_context on one
call: the returns of `fscrypt_get_encryption_info` on parent and child, and
the returns and records of the raw `get_context` fallback reads. -/
structure PermittedEnv where
  getInfoParentRes : Int
  getInfoChildRes : Int
  parentCtxRes : Int
  childCtxRes : Int
  parentCtx : fscrypt_context
  childCtx : fscrypt_context

/-- fscrypt_has_permitted_context. Returns 1 if permitted, 0 if forbidden;
any internal failure collapses to 0. The `crypt_info` fields of the inodes
are their `i_crypt_info` values as read after the (successful)
`fscrypt_get_encryption_info` calls. -/
def fscrypt_has_permitted_context (env : PermittedEnv)
    (parent child : Inode) : Int :=
  if child.ftype ≠ FileType.reg ∧ child.ftype ≠ FileType.dir ∧
      child.ftype ≠ FileType.lnk then
    1
  else if parent.encrypted = false then
    1
  else if child.encrypted = false then
    0
  else if env.getInfoParentRes ≠ 0 then
    0
  else if env.getInfoChildRes ≠ 0 then
    0
  else
    match parent.crypt_info, child.crypt_info with
    | some parent_ci, some child_ci =>
      if fscrypt_info_same_policy parent_ci child_ci then 1 else 0
    | _, _ =>
      if env.parentCtxRes ≠ (fscrypt_context_size : Int) then
        0
      else if env.childCtxRes ≠ (fscrypt_context_size : Int) then
        0
      else if fscrypt_context_same_policy
          { env.parentCtx with
            contents_encryption_mode :=
              fscrypt_data_crypt_mode parent.hie_capable
                env.parentCtx.contents_encryption_mode }
          { env.childCtx with
            contents_encryption_mode :=
              fscrypt_data_crypt_mode child.hie_capable
                env.childCtx.contents_encryption_mode } then
        1
      else
        0

/-! ## Inheritance (policy.c lines 271-325) -/

/-- Exogenous outcomes consumed by fscrypt_inherit_context on one call:
the return of `fscrypt_get_encryption_info(parent)` and the parent's
`i_crypt_info` after it, the boot-device probe
`fscrypt_force_iv_ino_lblk_32()` (a config/boot-type condition, lines
271-278), the return of `s_cop->set_context`, the nonce drawn by
`get_random_bytes`, and the return of the preload
`fscrypt_get_encryption_info(child)`. -/
structure InheritEnv where
  getInfoRes : Int
  parentCi : Option fscrypt_info
  forceIvInoLblk32 : Bool
  setCtxRes : Int
  nonce : List Nat
  preloadRes : Int

/-- fscrypt_inherit_context. Returns the C return value paired with the
context record handed to `set_context` (none when no write was issued). -/
def fscrypt_inherit_context (env : InheritEnv)
    (preload : Bool) : Int × Option fscrypt_context :=
  if env.getInfoRes < 0 then
    (env.getInfoRes, none)
  else
    match env.parentCi with
    | none => (-ENOKEY, none)
    | some ci =>
      let baseFlags := ci.ci_flags
      let flags :=
        if ci.ci_data_mode = FS_ENCRYPTION_MODE_PRIVATE ∧
            env.forceIvInoLblk32 = true then
          baseFlags ||| FS_POLICY_FLAG_IV_INO_LBLK_32
        else
          baseFlags
      let ctx : fscrypt_context :=
        { format := FS_ENCRYPTION_CONTEXT_FORMAT_V1
          contents_encryption_mode := ci.ci_data_mode
          filenames_encryption_mode := ci.ci_filename_mode
          flags := flags
          master_key_descriptor := ci.ci_master_key_descriptor
          nonce := env.nonce }
      if env.setCtxRes ≠ 0 then
        (env.setCtxRes, some ctx)
      else if preload = true then
        (env.preloadRes, some ctx)
      else
        (0, some ctx)

/-! ## Block-request crypto binder (policy.c lines 327-363) -/

/-- fscrypt_set_bio_ctx. `infoRef` is the opaque reference returned by
`fscrypt_crypt_info_act(ci, BIO_BC_INFO_GET)` (none models a NULL return).
The result is the C return value, whether the bio ended up marked BC_CRYPT,
and the `bc_info` reference stored on the bio on the marked path. The
WARN_ON calls in the C code print a warning and change no state, so they
have no counterpart here. -/
def fscrypt_set_bio_ctx (inode : Option Inode) (bioPresent : Bool)
    (infoRef : Option Unit) : Int × Bool × Option Unit :=
  match inode with
  | none => (-ENOENT, false, none)
  | some i =>
    if bioPresent = false then
      (-ENOENT, false, none)
    else
      match i.crypt_info with
      | some ci =>
        if i.ftype = FileType.reg ∧
            ci.ci_data_mode = FS_ENCRYPTION_MODE_PRIVATE then
          (0, true, infoRef)
        else
          (-ENOENT, false, none)
      | none => (-ENOENT, false, none)

/-! ## Helper lemmas -/

/-- The modelled Mode Dispatcher yields the hardware-private mode exactly
when it is the declared mode. -/
theorem fscrypt_data_crypt_mode_private_iff (hc : Bool) (m : Nat) :
    fscrypt_data_crypt_mode hc m = FS_ENCRYPTION_MODE_PRIVATE ↔
      m = FS_ENCRYPTION_MODE_PRIVATE := by
  unfold fscrypt_data_crypt_mode
  split
  · rename_i h
    exact ⟨fun _ => h.2, fun _ => rfl⟩
  · exact Iff.rfl

/-- ORing the IV-derivation-variant bit into a flags word makes that bit
set. -/
theorem or_iv_flag_set (f : Nat) :
    (f ||| FS_POLICY_FLAG_IV_INO_LBLK_32) &&& FS_POLICY_FLAG_IV_INO_LBLK_32 =
      FS_POLICY_FLAG_IV_INO_LBLK_32 := by
  apply Nat.eq_of_testBit_eq
  intro i
  simp only [Nat.testBit_and, Nat.testBit_or]
  cases h : Nat.testBit FS_POLICY_FLAG_IV_INO_LBLK_32 i <;> simp

/-! ## Claim C1 -/

/-- C1 counterexample: a stored context and a proposed policy that agree on
every field except that the stored flags carry the IV-derivation-variant bit
are the same policy under the masked §4.2 rule, yet
fscrypt_ioctl_set_policy reports a conflict (-EEXIST), not an idempotent
no-op: the set-policy comparison does not mask that bit. -/
theorem setPolicy_iv_flag_not_masked_cex :
    sameEffectivePolicySpec false
      ⟨1, 1, 4, 16, [1, 2, 3, 4, 5, 6, 7, 8], List.replicate 16 0⟩
      ⟨0, 1, 4, 0, [1, 2, 3, 4, 5, 6, 7, 8]⟩ = true ∧
    fscrypt_ioctl_set_policy
      ⟨true, 0, false, true, false, true, 28,
        ⟨1, 1, 4, 16, [1, 2, 3, 4, 5, 6, 7, 8], List.replicate 16 0⟩,
        0, fun _ _ => true, List.replicate 16 0⟩
      ⟨0, 1, 4, 0, [1, 2, 3, 4, 5, 6, 7, 8]⟩ = (-EEXIST, false) :=
  ⟨rfl, rfl⟩

/-- C1 (amended): on a target that already stores a full-size encryption
context, set-policy returns success without writing exactly when the stored
context and the proposed policy compare equal under
is_encryption_context_consistent_with_policy, which compares flags exactly
(no bit is masked); a stored context and a proposed policy differing only
in the IV-derivation-variant flag bit are therefore a conflict, not a
no-op. -/
theorem setPolicy_noop_iff_unmasked_consistent
    (env : SetPolicyEnv) (policy : fscrypt_policy)
    (hown : env.ownerOrCapable = true) (hver : policy.version = 0)
    (hmnt : env.mntWriteRes = 0)
    (hread : env.getCtxRes = (fscrypt_context_size : Int)) :
    fscrypt_ioctl_set_policy env policy = (0, false) ↔
      is_encryption_context_consistent_with_policy env.hie_capable
        env.storedCtx policy = true := by
  have hnd : env.getCtxRes ≠ -ENODATA := by rw [hread]; decide
  unfold fscrypt_ioctl_set_policy
  rw [if_neg (fun h => Bool.noConfusion (hown.symm.trans h)),
    if_neg (fun h => h hver), if_neg (fun h => h hmnt), if_neg hnd]
  by_cases hcon : is_encryption_context_consistent_with_policy
      env.hie_capable env.storedCtx policy = true
  · rw [if_pos ⟨hread, hcon⟩]
    exact ⟨fun _ => hcon, fun _ => rfl⟩
  · rw [if_neg (fun h => hcon h.2),
      if_pos (Or.inl (by rw [hread]; decide))]
    exact ⟨fun h => absurd (congrArg Prod.fst h) (by decide),
      fun h => absurd h hcon⟩

/-- Witness for the amended C1 theorem at a concrete consistent input. -/
theorem setPolicy_noop_iff_unmasked_consistent_witness :
    fscrypt_ioctl_set_policy
      ⟨true, 0, false, true, false, true, 28,
        ⟨1, 1, 4, 2, [1, 2, 3, 4, 5, 6, 7, 8], List.replicate 16 0⟩,
        0, fun _ _ => true, List.replicate 16 0⟩
      ⟨0, 1, 4, 2, [1, 2, 3, 4, 5, 6, 7, 8]⟩ = (0, false) :=
  (setPolicy_noop_iff_unmasked_consistent
    ⟨true, 0, false, true, false, true, 28,
      ⟨1, 1, 4, 2, [1, 2, 3, 4, 5, 6, 7, 8], List.replicate 16 0⟩,
      0, fun _ _ => true, List.replicate 16 0⟩
    ⟨0, 1, 4, 2, [1, 2, 3, 4, 5, 6, 7, 8]⟩
    rfl rfl rfl rfl).mpr rfl

/-! ## Claim C3 -/

/-- C3 counterexample: the stored-context-versus-proposed-policy comparison
used by set-policy is not symmetric on a hardware-capable filesystem: a
stored hardware-private mode matches a declared standard mode, but a stored
standard mode does not match a declared hardware-private mode, the other
fields being identical. -/
theorem setPolicy_comparator_asymmetric_cex :
    is_encryption_context_consistent_with_policy true
      ⟨1, FS_ENCRYPTION_MODE_PRIVATE, 4, 0, [1, 2, 3, 4, 5, 6, 7, 8],
        List.replicate 16 0⟩
      ⟨0, FS_ENCRYPTION_MODE_AES_256_XTS, 4, 0,
        [1, 2, 3, 4, 5, 6, 7, 8]⟩ = true ∧
    is_encryption_context_consistent_with_policy true
      ⟨1, FS_ENCRYPTION_MODE_AES_256_XTS, 4, 0, [1, 2, 3, 4, 5, 6, 7, 8],
        List.replicate 16 0⟩
      ⟨0, FS_ENCRYPTION_MODE_PRIVATE, 4, 0,
        [1, 2, 3, 4, 5, 6, 7, 8]⟩ = false :=
  ⟨rfl, rfl⟩

/-- C3 (amended): the parent-versus-child comparisons used by the
permitted-context check (both the resolved-info one and the raw-context one)
are symmetric for all inputs, and the stored-context-versus-proposed-policy
comparison of set-policy is symmetric (under exchanging the compared fields
of the two records) when the filesystem is not hardware-capable; on a
hardware-capable filesystem that comparison is asymmetric because its
hardware-private substitution is one-directional. -/
theorem permitted_comparators_symmetric :
    (∀ a b : fscrypt_info,
      fscrypt_info_same_policy a b = fscrypt_info_same_policy b a) ∧
    (∀ a b : fscrypt_context,
      fscrypt_context_same_policy a b = fscrypt_context_same_policy b a) ∧
    (∀ (c : fscrypt_context) (p : fscrypt_policy),
      is_encryption_context_consistent_with_policy false c p =
        is_encryption_context_consistent_with_policy false
          ⟨c.format, p.contents_encryption_mode,
            p.filenames_encryption_mode, p.flags,
            p.master_key_descriptor, c.nonce⟩
          ⟨p.version, c.contents_encryption_mode,
            c.filenames_encryption_mode, c.flags,
            c.master_key_descriptor⟩) := by
  refine ⟨?_, ?_, ?_⟩
  · intro a b
    unfold fscrypt_info_same_policy
    exact decide_eq_decide.mpr
      (by constructor <;> rintro ⟨h1, h2, h3, h4⟩ <;>
        exact ⟨h1.symm, h2.symm, h3.symm, h4.symm⟩)
  · intro a b
    unfold fscrypt_context_same_policy
    exact decide_eq_decide.mpr
      (by constructor <;> rintro ⟨h1, h2, h3, h4⟩ <;>
        exact ⟨h1.symm, h2.symm, h3.symm, h4.symm⟩)
  · intro c p
    by_cases h : c.contents_encryption_mode = p.contents_encryption_mode
    · rw [is_encryption_context_consistent_with_policy,
        is_encryption_context_consistent_with_policy,
        if_neg (by simp [h]), if_neg (by simp [h])]
      exact decide_eq_decide.mpr
        (by constructor <;> rintro ⟨h1, h2, h3⟩ <;>
          exact ⟨h1.symm, h2.symm, h3.symm⟩)
    · rw [is_encryption_context_consistent_with_policy,
        is_encryption_context_consistent_with_policy,
        if_pos ⟨h, by simp⟩, if_pos ⟨Ne.symm h, by simp⟩]

/-! ## Claim C4 -/

/-- C4: on a hardware-capable filesystem a stored hardware-private content
mode compares equal to a policy declaring any content mode (the other
compared fields being equal), and the substitution is one-directional: a
stored non-hardware-private mode differing from the declared mode makes the
comparison false, for either capability and in particular when the declared
mode is hardware-private. -/
theorem hw_private_substitution_one_directional
    (hc : Bool) (ctx : fscrypt_context) (policy : fscrypt_policy)
    (hdesc : ctx.master_key_descriptor = policy.master_key_descriptor)
    (hfl : ctx.flags = policy.flags)
    (hfn : ctx.filenames_encryption_mode =
      policy.filenames_encryption_mode) :
    (ctx.contents_encryption_mode = FS_ENCRYPTION_MODE_PRIVATE →
      is_encryption_context_consistent_with_policy true ctx policy =
        true) ∧
    (ctx.contents_encryption_mode ≠ FS_ENCRYPTION_MODE_PRIVATE →
      ctx.contents_encryption_mode ≠ policy.contents_encryption_mode →
      is_encryption_context_consistent_with_policy hc ctx policy =
        false) := by
  constructor
  · intro hpriv
    rw [is_encryption_context_consistent_with_policy,
      if_neg (by simp [hpriv])]
    exact decide_eq_true ⟨hdesc, hfl, hfn⟩
  · intro hnp hne
    rw [is_encryption_context_consistent_with_policy,
      if_pos ⟨hne, by simp [hnp]⟩]

/-- Witness for C4 at concrete inputs: both substitution directions. -/
theorem hw_private_substitution_witness :
    is_encryption_context_consistent_with_policy true
      ⟨1, FS_ENCRYPTION_MODE_PRIVATE, 4, 2, [0, 1, 2, 3, 4, 5, 6, 7],
        List.replicate 16 0⟩
      ⟨0, FS_ENCRYPTION_MODE_AES_256_XTS, 4, 2,
        [0, 1, 2, 3, 4, 5, 6, 7]⟩ = true ∧
    is_encryption_context_consistent_with_policy true
      ⟨1, FS_ENCRYPTION_MODE_AES_256_XTS, 4, 2, [0, 1, 2, 3, 4, 5, 6, 7],
        List.replicate 16 0⟩
      ⟨0, FS_ENCRYPTION_MODE_PRIVATE, 4, 2,
        [0, 1, 2, 3, 4, 5, 6, 7]⟩ = false :=
  ⟨(hw_private_substitution_one_directional true
      ⟨1, FS_ENCRYPTION_MODE_PRIVATE, 4, 2, [0, 1, 2, 3, 4, 5, 6, 7],
        List.replicate 16 0⟩
      ⟨0, FS_ENCRYPTION_MODE_AES_256_XTS, 4, 2, [0, 1, 2, 3, 4, 5, 6, 7]⟩
      rfl rfl rfl).1 rfl,
   (hw_private_substitution_one_directional true
      ⟨1, FS_ENCRYPTION_MODE_AES_256_XTS, 4, 2, [0, 1, 2, 3, 4, 5, 6, 7],
        List.replicate 16 0⟩
      ⟨0, FS_ENCRYPTION_MODE_PRIVATE, 4, 2, [0, 1, 2, 3, 4, 5, 6, 7]⟩
      rfl rfl rfl).2 (by decide) (by decide)⟩

/-! ## Claim C6 -/

/-- C6: when the stored context exists but does not compare equal to the
proposed policy, or the context read reports an oversized (-ERANGE) or
wrong-sized record, set-policy returns -EEXIST and issues no context
write. -/
theorem setPolicy_conflict_returns_eexist
    (env : SetPolicyEnv) (policy : fscrypt_policy)
    (hown : env.ownerOrCapable = true) (hver : policy.version = 0)
    (hmnt : env.mntWriteRes = 0)
    (hcase : (env.getCtxRes = (fscrypt_context_size : Int) ∧
        is_encryption_context_consistent_with_policy env.hie_capable
          env.storedCtx policy = false) ∨
      env.getCtxRes = -ERANGE ∨
      (0 ≤ env.getCtxRes ∧
        env.getCtxRes ≠ (fscrypt_context_size : Int))) :
    fscrypt_ioctl_set_policy env policy = (-EEXIST, false) := by
  unfold fscrypt_ioctl_set_policy
  rw [if_neg (fun h => Bool.noConfusion (hown.symm.trans h)),
    if_neg (fun h => h hver), if_neg (fun h => h hmnt)]
  rcases hcase with ⟨hr, hcon⟩ | hr | ⟨hge, hne⟩
  · rw [if_neg (by rw [hr]; decide),
      if_neg (fun h => Bool.noConfusion (hcon.symm.trans h.2)),
      if_pos (Or.inl (by rw [hr]; decide))]
  · rw [if_neg (by rw [hr]; decide),
      if_neg (fun h => by rw [hr] at h; exact absurd h.1 (by decide)),
      if_pos (Or.inr hr)]
  · rw [if_neg (fun h => by rw [h] at hge; exact absurd hge (by decide)),
      if_neg (fun h => hne h.1), if_pos (Or.inl hge)]

/-- Witness for C6 at a concrete input: an oversized-record read. -/
theorem setPolicy_conflict_returns_eexist_witness :
    fscrypt_ioctl_set_policy
      ⟨true, 0, false, true, false, true, -ERANGE,
        ⟨1, 1, 4, 0, [1, 2, 3, 4, 5, 6, 7, 8], List.replicate 16 0⟩,
        0, fun _ _ => true, List.replicate 16 0⟩
      ⟨0, 1, 4, 0, [1, 2, 3, 4, 5, 6, 7, 8]⟩ = (-EEXIST, false) :=
  setPolicy_conflict_returns_eexist
    ⟨true, 0, false, true, false, true, -ERANGE,
      ⟨1, 1, 4, 0, [1, 2, 3, 4, 5, 6, 7, 8], List.replicate 16 0⟩,
      0, fun _ _ => true, List.replicate 16 0⟩
    ⟨0, 1, 4, 0, [1, 2, 3, 4, 5, 6, 7, 8]⟩
    rfl rfl rfl (Or.inr (Or.inl rfl))

/-! ## Claim C7 -/

/-- C7: create_encryption_context_from_policy returns -EINVAL for every
policy whose flags include the IV-derivation-variant bit when the effective
content mode is not hardware-private, and does not reject that flag when
the effective content mode is hardware-private: with the mode pair on the
allow-list and only recognized flag bits set, it proceeds to the context
write and returns the storage result. -/
theorem create_context_iv_flag_needs_private
    (env : SetPolicyEnv) (policy : fscrypt_policy)
    (hiv : policy.flags &&& FS_POLICY_FLAG_IV_INO_LBLK_32 ≠ 0) :
    (fscrypt_data_crypt_mode env.hie_capable
        policy.contents_encryption_mode ≠ FS_ENCRYPTION_MODE_PRIVATE →
      create_encryption_context_from_policy env policy =
        (-EINVAL, false)) ∧
    (fscrypt_data_crypt_mode env.hie_capable
        policy.contents_encryption_mode = FS_ENCRYPTION_MODE_PRIVATE →
      env.validEncModes policy.contents_encryption_mode
        policy.filenames_encryption_mode = true →
      policy.flags &&& (255 ^^^ FS_POLICY_FLAGS_VALID) = 0 →
      create_encryption_context_from_policy env policy =
        (env.setCtxRes, true)) := by
  constructor
  · intro heff
    have hnp : policy.contents_encryption_mode ≠
        FS_ENCRYPTION_MODE_PRIVATE := by
      intro h
      exact heff ((fscrypt_data_crypt_mode_private_iff
        env.hie_capable policy.contents_encryption_mode).mpr h)
    unfold create_encryption_context_from_policy
    split
    · rfl
    · split
      · rfl
      · rw [if_pos ⟨hiv, hnp⟩]
  · intro heff hmodes hflags
    have hp : policy.contents_encryption_mode =
        FS_ENCRYPTION_MODE_PRIVATE :=
      (fscrypt_data_crypt_mode_private_iff
        env.hie_capable policy.contents_encryption_mode).mp heff
    unfold create_encryption_context_from_policy
    rw [if_neg (by simp [hmodes]), if_neg (by simp [hflags]),
      if_neg (by simp [hp])]

/-- Witness for C7 at concrete inputs: both the rejecting and the accepting
direction. -/
theorem create_context_iv_flag_needs_private_witness :
    create_encryption_context_from_policy
      ⟨true, 0, true, true, false, true, -ENODATA,
        ⟨1, 1, 4, 0, [1, 2, 3, 4, 5, 6, 7, 8], List.replicate 16 0⟩,
        0, fun _ _ => true, List.replicate 16 0⟩
      ⟨0, FS_ENCRYPTION_MODE_AES_256_XTS, 4, 16,
        [1, 2, 3, 4, 5, 6, 7, 8]⟩ = (-EINVAL, false) ∧
    create_encryption_context_from_policy
      ⟨true, 0, true, true, false, true, -ENODATA,
        ⟨1, 1, 4, 0, [1, 2, 3, 4, 5, 6, 7, 8], List.replicate 16 0⟩,
        0, fun _ _ => true, List.replicate 16 0⟩
      ⟨0, FS_ENCRYPTION_MODE_PRIVATE, 4, 16,
        [1, 2, 3, 4, 5, 6, 7, 8]⟩ = (0, true) :=
  ⟨(create_context_iv_flag_needs_private
      ⟨true, 0, true, true, false, true, -ENODATA,
        ⟨1, 1, 4, 0, [1, 2, 3, 4, 5, 6, 7, 8], List.replicate 16 0⟩,
        0, fun _ _ => true, List.replicate 16 0⟩
      ⟨0, FS_ENCRYPTION_MODE_AES_256_XTS, 4, 16, [1, 2, 3, 4, 5, 6, 7, 8]⟩
      (by decide)).1 (by decide),
   (create_context_iv_flag_needs_private
      ⟨true, 0, true, true, false, true, -ENODATA,
        ⟨1, 1, 4, 0, [1, 2, 3, 4, 5, 6, 7, 8], List.replicate 16 0⟩,
        0, fun _ _ => true, List.replicate 16 0⟩
      ⟨0, FS_ENCRYPTION_MODE_PRIVATE, 4, 16, [1, 2, 3, 4, 5, 6, 7, 8]⟩
      (by decide)).2 rfl rfl rfl⟩

/-! ## Claim C10 -/

/-- C10: a get_context failure other than -ENODATA and -ERANGE is returned
to the caller unchanged by set-policy: no context write is issued and the
result is the read error itself, not a branch-specific code. -/
theorem setPolicy_propagates_read_errors
    (env : SetPolicyEnv) (policy : fscrypt_policy)
    (hown : env.ownerOrCapable = true) (hver : policy.version = 0)
    (hmnt : env.mntWriteRes = 0)
    (herr : env.getCtxRes < 0)
    (hnd : env.getCtxRes ≠ -ENODATA)
    (hrg : env.getCtxRes ≠ -ERANGE) :
    fscrypt_ioctl_set_policy env policy = (env.getCtxRes, false) := by
  have hsz : env.getCtxRes ≠ (fscrypt_context_size : Int) := by
    intro h
    rw [h] at herr
    exact absurd herr (by decide)
  unfold fscrypt_ioctl_set_policy
  rw [if_neg (fun h => Bool.noConfusion (hown.symm.trans h)),
    if_neg (fun h => h hver), if_neg (fun h => h hmnt), if_neg hnd,
    if_neg (fun h => hsz h.1),
    if_neg (fun h => h.elim (fun hge => absurd herr (not_lt.mpr hge)) hrg)]

/-- Witness for C10 at a concrete input: a storage I/O error (-EACCES used
as an arbitrary errno distinct from -ENODATA and -ERANGE). -/
theorem setPolicy_propagates_read_errors_witness :
    fscrypt_ioctl_set_policy
      ⟨true, 0, false, true, false, true, -13,
        ⟨1, 1, 4, 0, [1, 2, 3, 4, 5, 6, 7, 8], List.replicate 16 0⟩,
        0, fun _ _ => true, List.replicate 16 0⟩
      ⟨0, 1, 4, 0, [1, 2, 3, 4, 5, 6, 7, 8]⟩ = (-13, false) :=
  setPolicy_propagates_read_errors
    ⟨true, 0, false, true, false, true, -13,
      ⟨1, 1, 4, 0, [1, 2, 3, 4, 5, 6, 7, 8], List.replicate 16 0⟩,
      0, fun _ _ => true, List.replicate 16 0⟩
    ⟨0, 1, 4, 0, [1, 2, 3, 4, 5, 6, 7, 8]⟩
    rfl rfl rfl (by decide) (by decide) (by decide)

/-! ## Claim C8 -/

/-- C8: whenever get-policy succeeds, a directory whose stored content mode
is not the invalid/none mode is reported with the standard at-rest mode
AES-256-XTS (in particular never hardware-private), while a non-directory
object is reported with its stored content mode unchanged. -/
theorem getPolicy_directory_reports_xts
    (inode : Inode) (res : Int) (ctx : fscrypt_context)
    (p : fscrypt_policy)
    (h : fscrypt_ioctl_get_policy inode res ctx = .ok p) :
    (inode.ftype = FileType.dir →
      ctx.contents_encryption_mode ≠ FS_ENCRYPTION_MODE_INVALID →
      p.contents_encryption_mode = FS_ENCRYPTION_MODE_AES_256_XTS ∧
      p.contents_encryption_mode ≠ FS_ENCRYPTION_MODE_PRIVATE) ∧
    (inode.ftype ≠ FileType.dir →
      p.contents_encryption_mode = ctx.contents_encryption_mode) := by
  unfold fscrypt_ioctl_get_policy at h
  split at h
  · exact Except.noConfusion h
  · split at h
    · exact Except.noConfusion h
    · split at h
      · exact Except.noConfusion h
      · split at h
        · exact Except.noConfusion h
        · have hp := Except.ok.inj h
          constructor
          · intro hdir hmode
            rw [← hp]
            have hx : (if inode.ftype = FileType.dir ∧
                ctx.contents_encryption_mode ≠
                  FS_ENCRYPTION_MODE_INVALID then
                FS_ENCRYPTION_MODE_AES_256_XTS
              else ctx.contents_encryption_mode) =
                FS_ENCRYPTION_MODE_AES_256_XTS := if_pos ⟨hdir, hmode⟩
            exact ⟨hx, fun hq => absurd (hx.symm.trans hq) (by decide)⟩
          · intro hdir
            rw [← hp]
            exact if_neg (fun hq => hdir hq.1)

/-- Witness for C8 at a concrete input: a directory whose stored mode is
hardware-private is reported as AES-256-XTS. -/
theorem getPolicy_directory_reports_xts_witness :
    (⟨0, FS_ENCRYPTION_MODE_AES_256_XTS, 4, 0, [1, 2, 3, 4, 5, 6, 7, 8]⟩ :
        fscrypt_policy).contents_encryption_mode =
      FS_ENCRYPTION_MODE_AES_256_XTS ∧
    (⟨0, FS_ENCRYPTION_MODE_AES_256_XTS, 4, 0, [1, 2, 3, 4, 5, 6, 7, 8]⟩ :
        fscrypt_policy).contents_encryption_mode ≠
      FS_ENCRYPTION_MODE_PRIVATE :=
  (getPolicy_directory_reports_xts
    ⟨FileType.dir, true, true, none⟩ 28
    ⟨1, FS_ENCRYPTION_MODE_PRIVATE, 4, 0, [1, 2, 3, 4, 5, 6, 7, 8],
      List.replicate 16 0⟩
    ⟨0, FS_ENCRYPTION_MODE_AES_256_XTS, 4, 0, [1, 2, 3, 4, 5, 6, 7, 8]⟩
    rfl).1 rfl (by decide)

/-! ## Claim C9 -/

/-- C9: when the parent's crypto info resolves, the child context handed to
set_context copies the parent's descriptor, content mode and filename mode;
its flags equal the parent's flags ORed with the IV-derivation-variant bit
exactly when the content mode is hardware-private and the boot-device hook
requires that bit (so the bit is set on the child even when the parent
lacked it), and equal the parent's flags unchanged in every other case. -/
theorem inherit_copies_parent_and_forces_iv
    (env : InheritEnv) (preload : Bool) (ci : fscrypt_info)
    (hres : ¬env.getInfoRes < 0) (hci : env.parentCi = some ci) :
    ∃ ctx : fscrypt_context,
      (fscrypt_inherit_context env preload).2 = some ctx ∧
      ctx.master_key_descriptor = ci.ci_master_key_descriptor ∧
      ctx.contents_encryption_mode = ci.ci_data_mode ∧
      ctx.filenames_encryption_mode = ci.ci_filename_mode ∧
      ((ci.ci_data_mode = FS_ENCRYPTION_MODE_PRIVATE ∧
          env.forceIvInoLblk32 = true) →
        ctx.flags = ci.ci_flags ||| FS_POLICY_FLAG_IV_INO_LBLK_32 ∧
        ctx.flags &&& FS_POLICY_FLAG_IV_INO_LBLK_32 ≠ 0) ∧
      (¬(ci.ci_data_mode = FS_ENCRYPTION_MODE_PRIVATE ∧
          env.forceIvInoLblk32 = true) →
        ctx.flags = ci.ci_flags) := by
  have hmain : (fscrypt_inherit_context env preload).2 =
      some ⟨FS_ENCRYPTION_CONTEXT_FORMAT_V1, ci.ci_data_mode,
        ci.ci_filename_mode,
        if ci.ci_data_mode = FS_ENCRYPTION_MODE_PRIVATE ∧
            env.forceIvInoLblk32 = true then
          ci.ci_flags ||| FS_POLICY_FLAG_IV_INO_LBLK_32
        else ci.ci_flags,
        ci.ci_master_key_descriptor, env.nonce⟩ := by
    unfold fscrypt_inherit_context
    rw [if_neg hres, hci]
    by_cases hs : env.setCtxRes ≠ 0
    · simp [hs]
    · by_cases hpl : preload = true <;> simp [hs, hpl]
  refine ⟨_, hmain, rfl, rfl, rfl, ?_, ?_⟩
  · intro hf
    constructor
    · simp [hf]
    · have h16 := or_iv_flag_set ci.ci_flags
      simp only [FS_POLICY_FLAG_IV_INO_LBLK_32] at h16
      simp [hf, h16, FS_POLICY_FLAG_IV_INO_LBLK_32]
  · intro hn
    simp [hn]

/-- Witness for C9 at a concrete input: a hardware-private parent on a
device whose hook requires the IV-derivation-variant bit, with parent flags
lacking that bit. -/
theorem inherit_copies_parent_and_forces_iv_witness :
    ∃ ctx : fscrypt_context,
      (fscrypt_inherit_context
        ⟨0, some ⟨FS_ENCRYPTION_MODE_PRIVATE, 4, 0,
          [1, 2, 3, 4, 5, 6, 7, 8]⟩, true, 0,
          List.replicate 16 0, 0⟩ false).2 = some ctx ∧
      ctx.master_key_descriptor = [1, 2, 3, 4, 5, 6, 7, 8] ∧
      ctx.contents_encryption_mode = FS_ENCRYPTION_MODE_PRIVATE ∧
      ctx.filenames_encryption_mode = 4 ∧
      ctx.flags = 0 ||| FS_POLICY_FLAG_IV_INO_LBLK_32 := by
  obtain ⟨ctx, h1, h2, h3, h4, h5, _⟩ :=
    inherit_copies_parent_and_forces_iv
      ⟨0, some ⟨FS_ENCRYPTION_MODE_PRIVATE, 4, 0,
        [1, 2, 3, 4, 5, 6, 7, 8]⟩, true, 0, List.replicate 16 0, 0⟩
      false ⟨FS_ENCRYPTION_MODE_PRIVATE, 4, 0, [1, 2, 3, 4, 5, 6, 7, 8]⟩
      (by decide) rfl
  exact ⟨ctx, h1, h2, h3, h4, (h5 ⟨rfl, rfl⟩).1⟩

/-! ## Claim C5 -/

/-- An if-then-else of two results that are each 0 or 1 is 0 or 1. -/
theorem ite_int_zero_or_one (c : Prop) [Decidable c] {a b : Int}
    (ha : a = 0 ∨ a = 1) (hb : b = 0 ∨ b = 1) :
    (if c then a else b) = 0 ∨ (if c then a else b) = 1 := by
  by_cases h : c
  · rw [if_pos h]
    exact ha
  · rw [if_neg h]
    exact hb

/-- The raw-read tail of the permitted-context check is 0 when either
side's read is not full-size. -/
theorem short_read_tail (a b x : Int)
    (h : a ≠ (fscrypt_context_size : Int) ∨
      b ≠ (fscrypt_context_size : Int)) :
    (if a ≠ (fscrypt_context_size : Int) then (0 : Int)
      else if b ≠ (fscrypt_context_size : Int) then 0 else x) = 0 := by
  rcases h with h | h
  · rw [if_pos h]
  · by_cases h1 : a ≠ (fscrypt_context_size : Int)
    · rw [if_pos h1]
    · rw [if_neg h1, if_pos h]

/-- The permitted-context check only ever returns 0 or 1, never an error
code. -/
theorem permitted_context_result_zero_or_one
    (env : PermittedEnv) (parent child : Inode) :
    fscrypt_has_permitted_context env parent child = 0 ∨
    fscrypt_has_permitted_context env parent child = 1 := by
  unfold fscrypt_has_permitted_context
  refine ite_int_zero_or_one _ (Or.inr rfl)
    (ite_int_zero_or_one _ (Or.inr rfl)
      (ite_int_zero_or_one _ (Or.inl rfl)
        (ite_int_zero_or_one _ (Or.inl rfl)
          (ite_int_zero_or_one _ (Or.inl rfl) ?_))))
  cases parent.crypt_info <;> cases child.crypt_info <;>
    first
      | exact ite_int_zero_or_one _ (Or.inr rfl) (Or.inl rfl)
      | exact ite_int_zero_or_one _ (Or.inl rfl)
          (ite_int_zero_or_one _ (Or.inl rfl)
            (ite_int_zero_or_one _ (Or.inr rfl) (Or.inl rfl)))

/-- A failed crypto-info resolution on either side forbids. -/
theorem permitted_context_info_error_forbidden
    (env : PermittedEnv) (parent child : Inode)
    (htype : child.ftype = FileType.reg ∨ child.ftype = FileType.dir ∨
      child.ftype = FileType.lnk)
    (hp : parent.encrypted = true) (hc : child.encrypted = true)
    (herr : env.getInfoParentRes ≠ 0 ∨ env.getInfoChildRes ≠ 0) :
    fscrypt_has_permitted_context env parent child = 0 := by
  have ht : ¬(child.ftype ≠ FileType.reg ∧ child.ftype ≠ FileType.dir ∧
      child.ftype ≠ FileType.lnk) := by
    rcases htype with h | h | h <;> simp [h]
  unfold fscrypt_has_permitted_context
  rw [if_neg ht, if_neg (by simp [hp]), if_neg (by simp [hc])]
  rcases herr with h | h
  · rw [if_pos h]
  · by_cases h1 : env.getInfoParentRes ≠ 0
    · rw [if_pos h1]
    · rw [if_neg h1, if_pos h]

/-- A raw context read on either side that does not return a full-size
record forbids, whenever the fallback path is taken. -/
theorem permitted_context_short_read_forbidden
    (env : PermittedEnv) (parent child : Inode)
    (htype : child.ftype = FileType.reg ∨ child.ftype = FileType.dir ∨
      child.ftype = FileType.lnk)
    (hp : parent.encrypted = true) (hc : child.encrypted = true)
    (hnone : parent.crypt_info = none ∨ child.crypt_info = none)
    (hsz : env.parentCtxRes ≠ (fscrypt_context_size : Int) ∨
      env.childCtxRes ≠ (fscrypt_context_size : Int)) :
    fscrypt_has_permitted_context env parent child = 0 := by
  have ht : ¬(child.ftype ≠ FileType.reg ∧ child.ftype ≠ FileType.dir ∧
      child.ftype ≠ FileType.lnk) := by
    rcases htype with h | h | h <;> simp [h]
  unfold fscrypt_has_permitted_context
  rw [if_neg ht, if_neg (by simp [hp]), if_neg (by simp [hc])]
  by_cases h1 : env.getInfoParentRes ≠ 0
  · rw [if_pos h1]
  · rw [if_neg h1]
    by_cases h2 : env.getInfoChildRes ≠ 0
    · rw [if_pos h2]
    · rw [if_neg h2]
      rcases hnone with h | h <;> rw [h]
      · cases child.crypt_info <;>
          exact short_read_tail env.parentCtxRes env.childCtxRes _ hsz
      · cases parent.crypt_info <;>
          exact short_read_tail env.parentCtxRes env.childCtxRes _ hsz

/-- C5: fscrypt_has_permitted_context never reports an error (its result is
always 0 or 1) and fails closed: with parent and child both encrypted (and
the child of a type subject to encryption), a failed crypto-info resolution
on either side returns 0, and on the fallback path a raw context read on
either side returning anything other than a full-size record returns 0. -/
theorem permitted_check_fail_closed :
    (∀ (env : PermittedEnv) (parent child : Inode),
      fscrypt_has_permitted_context env parent child = 0 ∨
      fscrypt_has_permitted_context env parent child = 1) ∧
    (∀ (env : PermittedEnv) (parent child : Inode),
      (child.ftype = FileType.reg ∨ child.ftype = FileType.dir ∨
        child.ftype = FileType.lnk) →
      parent.encrypted = true → child.encrypted = true →
      (env.getInfoParentRes ≠ 0 ∨ env.getInfoChildRes ≠ 0) →
      fscrypt_has_permitted_context env parent child = 0) ∧
    (∀ (env : PermittedEnv) (parent child : Inode),
      (child.ftype = FileType.reg ∨ child.ftype = FileType.dir ∨
        child.ftype = FileType.lnk) →
      parent.encrypted = true → child.encrypted = true →
      (parent.crypt_info = none ∨ child.crypt_info = none) →
      (env.parentCtxRes ≠ (fscrypt_context_size : Int) ∨
        env.childCtxRes ≠ (fscrypt_context_size : Int)) →
      fscrypt_has_permitted_context env parent child = 0) :=
  ⟨permitted_context_result_zero_or_one,
   permitted_context_info_error_forbidden,
   permitted_context_short_read_forbidden⟩

/-- Witness for C5 at concrete inputs: a key-resolution failure on the
parent side, and a short raw read on the parent side. -/
theorem permitted_check_fail_closed_witness :
    fscrypt_has_permitted_context
      ⟨-ENOKEY, 0, 28, 28,
        ⟨1, 1, 4, 0, [1, 2, 3, 4, 5, 6, 7, 8], List.replicate 16 0⟩,
        ⟨1, 1, 4, 0, [1, 2, 3, 4, 5, 6, 7, 8], List.replicate 16 0⟩⟩
      ⟨FileType.dir, true, true, none⟩
      ⟨FileType.reg, true, true, none⟩ = 0 ∧
    fscrypt_has_permitted_context
      ⟨0, 0, 27, 28,
        ⟨1, 1, 4, 0, [1, 2, 3, 4, 5, 6, 7, 8], List.replicate 16 0⟩,
        ⟨1, 1, 4, 0, [1, 2, 3, 4, 5, 6, 7, 8], List.replicate 16 0⟩⟩
      ⟨FileType.dir, true, true, none⟩
      ⟨FileType.reg, true, true, none⟩ = 0 :=
  ⟨permitted_check_fail_closed.2.1
    ⟨-ENOKEY, 0, 28, 28,
      ⟨1, 1, 4, 0, [1, 2, 3, 4, 5, 6, 7, 8], List.replicate 16 0⟩,
      ⟨1, 1, 4, 0, [1, 2, 3, 4, 5, 6, 7, 8], List.replicate 16 0⟩⟩
    ⟨FileType.dir, true, true, none⟩ ⟨FileType.reg, true, true, none⟩
    (Or.inl rfl) rfl rfl (Or.inl (by decide)),
   permitted_check_fail_closed.2.2
    ⟨0, 0, 27, 28,
      ⟨1, 1, 4, 0, [1, 2, 3, 4, 5, 6, 7, 8], List.replicate 16 0⟩,
      ⟨1, 1, 4, 0, [1, 2, 3, 4, 5, 6, 7, 8], List.replicate 16 0⟩⟩
    ⟨FileType.dir, true, true, none⟩ ⟨FileType.reg, true, true, none⟩
    (Or.inl rfl) rfl rfl (Or.inl rfl)
    (Or.inl (by decide))⟩

/-! ## Claim C2 -/

/-- C2: code behavior at the failing input. On a regular file whose
resolved info uses the hardware-private content mode and whose opaque info
reference comes back empty (NULL), fscrypt_set_bio_ctx returns 0 (success)
with the bio marked BC_CRYPT and a null bc_info stored: the warning-only
anomaly does not fail the bind, contrary to the requirement that it fail
outright. -/
theorem bio_bind_null_info_succeeds :
    fscrypt_set_bio_ctx
      (some ⟨FileType.reg, true, true,
        some ⟨FS_ENCRYPTION_MODE_PRIVATE, 4, 0,
          [1, 2, 3, 4, 5, 6, 7, 8]⟩⟩)
      true none = (0, true, none) :=
  rfl
